import Mathlib

/-!
Verification of `src/ui/desktop/src/components/settings/api_keys/utils.tsx`.

The TypeScript module has three async functions:
  `getProvidersList`, `getSecretsSettings`, `getActiveProviders`.
We embed them shallowly: each outbound `fetch` is modelled by an explicit
environment field giving the outcome of that request (network failure,
or an HTTP response whose body parse may itself fail), and
`getSecretsSettings` additionally returns the list of POST requests it
issued, so that the request-shaping contract is provable.
JavaScript `x || d` on strings is falsy-sensitive: it yields `d` both
when `x` is absent (`undefined`/`null`) and when `x` is the empty
string; `jsOrStr` captures exactly that.  JSON objects are modelled as
insertion-ordered association lists, so `Object.values` is `map Prod.snd`.
-/

set_option autoImplicit false

namespace ApiKeysUtils

/-- A raw `details` object of a provider catalog entry, every field optional
(`none` models a missing or `undefined`/`null` JSON field). -/
structure RawDetails where
  name : Option String
  description : Option String
  models : Option (List String)
  required_keys : Option (List String)
deriving Repr, DecidableEq

/-- A raw provider catalog entry as returned by GET `/agent/providers`:
a root-level `id` and an optional nested `details` object. -/
structure RawProviderEntry where
  id : String
  details : Option RawDetails
deriving Repr, DecidableEq

/-- The normalized provider record produced by `getProvidersList`
(the `Provider` type imported from `./types`). -/
structure Provider where
  id : String
  name : String
  description : String
  models : List String
  requiredKeys : List String
deriving Repr, DecidableEq

/-- A secret-status value: `is_set: boolean` (additional fields ignored). -/
structure SecretStatus where
  is_set : Bool
deriving Repr, DecidableEq

/-- A `ProviderResponse` value of the secrets-status mapping: optional `name`
and optional `secret_status` object (an insertion-ordered key/value list). -/
structure ProviderResponse where
  name : Option String
  secret_status : Option (List (String × SecretStatus))
deriving Repr, DecidableEq

/-- JavaScript `v || d` for an optional string `v`: the default is taken when
`v` is absent or when it is the empty string (both are falsy in JS). -/
def jsOrStr (v : Option String) (d : String) : String :=
  match v with
  | none => d
  | some s => if s = "" then d else s

/-- `Object.values` on a JSON object modelled as an association list. -/
def objectValues {α : Type} (m : List (String × α)) : List α :=
  m.map Prod.snd

/-- An HTTP response: `ok`/`statusText` of the `fetch` Response, and the
outcome of `response.json()` (`Except.error` models a body whose JSON
parse rejects). -/
structure HttpResponse (β : Type) where
  ok : Bool
  statusText : String
  json : Except String β

/-- The POST request issued by `getSecretsSettings` (the JSON body is the
object with single field `providers`, recorded here structurally). -/
structure PostRequest where
  url : String
  contentType : String
  xSecretKey : String
  bodyProviders : List String
deriving Repr, DecidableEq

/-- Errors escaping the two fetching functions: `requestError` is a
`new Error(...)` thrown by the module's own status check, `transport` is a
rejection surfaced by the HTTP client or body parsing. -/
inductive JsError where
  | requestError (message : String)
  | transport (message : String)
deriving Repr, DecidableEq

/-- The environment a call runs against: the configuration accessors
`getApiUrl` / `getSecretKey` and the behaviour of the two `fetch` calls.
`Except.error` at the outer level models a network-level fetch rejection. -/
structure Env where
  apiUrl : String → String
  secretKey : String
  providersFetch : Except String (HttpResponse (List RawProviderEntry))
  secretsFetch : PostRequest → Except String (HttpResponse (List (String × ProviderResponse)))

/-- Normalization of one raw catalog entry, mirroring the object literal in
`getProvidersList`: `item.details?.name || "Unknown Provider"`, etc.
Optional chaining through a missing `details` yields `undefined`, hence
`Option.bind`; `|| []` on an array only fires on absence since arrays are
always truthy. -/
def normalizeEntry (item : RawProviderEntry) : Provider :=
  { id := item.id
    name := jsOrStr (item.details.bind RawDetails.name) "Unknown Provider"
    description := jsOrStr (item.details.bind RawDetails.description) "No description available."
    models := (item.details.bind RawDetails.models).getD []
    requiredKeys := (item.details.bind RawDetails.required_keys).getD [] }

/-- `getProvidersList`: GET the catalog; on a non-ok response throw
`Error("Failed to fetch providers: " + statusText)`; otherwise parse the
body and map each raw entry through normalization. -/
def getProvidersList (env : Env) : Except JsError (List Provider) :=
  match env.providersFetch with
  | .error msg => .error (.transport msg)
  | .ok response =>
    if !response.ok then
      .error (.requestError ("Failed to fetch providers: " ++ response.statusText))
    else
      match response.json with
      | .error msg => .error (.transport msg)
      | .ok data => .ok (data.map normalizeEntry)

/-- The POST request `getSecretsSettings` builds: fixed path through
`getApiUrl`, JSON content type, `X-Secret-Key` from `getSecretKey`, and the
provider ids as the body's `providers` field. -/
def secretsRequest (env : Env) (providerIds : List String) : PostRequest :=
  { url := env.apiUrl "/secrets/providers"
    contentType := "application/json"
    xSecretKey := env.secretKey
    bodyProviders := providerIds }

/-- `getSecretsSettings`: obtain the provider list, POST its ids to the
secrets-status endpoint, throw `Error("Failed to fetch secrets")` on a
non-ok response, else return the parsed body unmodified.  The first
component is the trace of POST requests issued during the call. -/
def getSecretsSettings (env : Env) :
    List PostRequest × Except JsError (List (String × ProviderResponse)) :=
  match getProvidersList env with
  | .error e => ([], .error e)
  | .ok providerList =>
    match env.secretsFetch (secretsRequest env (providerList.map Provider.id)) with
    | .error msg =>
        ([secretsRequest env (providerList.map Provider.id)], .error (.transport msg))
    | .ok response =>
      if !response.ok then
        ([secretsRequest env (providerList.map Provider.id)],
          .error (.requestError "Failed to fetch secrets"))
      else
        match response.json with
        | .error msg =>
            ([secretsRequest env (providerList.map Provider.id)], .error (.transport msg))
        | .ok data =>
            ([secretsRequest env (providerList.map Provider.id)], .ok data)

/-- Whether a provider entry qualifies as active:
`Object.values(provider.secret_status || {}).some((key) => key.is_set)`. -/
def providerHasActiveKey (provider : ProviderResponse) : Bool :=
  (objectValues (provider.secret_status.getD [])).any SecretStatus.is_set

/-- The pure filter/map pipeline of `getActiveProviders` applied to a
secrets-status mapping: keep entries with some set key, extract
`provider.name || "Unknown Provider"`. -/
def activeProvidersOf (settings : List (String × ProviderResponse)) : List String :=
  ((objectValues settings).filter providerHasActiveKey).map
    (fun provider => jsOrStr provider.name "Unknown Provider")

/-- `getActiveProviders`: run the dependency chain inside `try`; any error is
caught and `[]` returned instead. -/
def getActiveProviders (env : Env) : List String :=
  match (getSecretsSettings env).2 with
  | .error _ => []
  | .ok secretsSettings => activeProvidersOf secretsSettings

/-! Spec-side definitions, following the wording of the claims being checked
against the code, for the refinement-style comparisons below. -/

/-- The qualifying condition as the spec words it: the set of secret-status
values (empty if `secret_status` is absent) contains one with
`is_set == true`. -/
def specHasSetKey (p : ProviderResponse) : Bool :=
  match p.secret_status with
  | none => false
  | some m => (m.map Prod.snd).any SecretStatus.is_set

/-- The display name as claim C2 words it literally: the `name` field,
defaulting to "Unknown Provider" only when absent. -/
def literalDisplayName (p : ProviderResponse) : String :=
  p.name.getD "Unknown Provider"

/-- Claim C2 read literally: include the literal display name if and only if
some secret-status value has `is_set == true`. -/
def specActiveLiteral (settings : List (String × ProviderResponse)) : List String :=
  (settings.map Prod.snd).filterMap fun p =>
    if specHasSetKey p then some (literalDisplayName p) else none

/-- The display name as the amended claim words it: the `name` field,
defaulting to "Unknown Provider" when absent or empty. -/
def amendedDisplayName (p : ProviderResponse) : String :=
  match p.name with
  | none => "Unknown Provider"
  | some s => if s = "" then "Unknown Provider" else s

/-- Claim C2 as amended: include the display name, defaulting when absent or
empty, if and only if some secret-status value has `is_set == true`. -/
def specActiveAmended (settings : List (String × ProviderResponse)) : List String :=
  (settings.map Prod.snd).filterMap fun p =>
    if specHasSetKey p then some (amendedDisplayName p) else none

/-- Claim C4 as amended: every output field defaulted independently of the
others, the string fields when absent or empty, the sequence fields when
absent. -/
def specNormalize (item : RawProviderEntry) : Provider :=
  { id := item.id
    name :=
      match item.details.bind RawDetails.name with
      | none => "Unknown Provider"
      | some s => if s = "" then "Unknown Provider" else s
    description :=
      match item.details.bind RawDetails.description with
      | none => "No description available."
      | some s => if s = "" then "No description available." else s
    models :=
      match item.details.bind RawDetails.models with
      | none => []
      | some l => l
    requiredKeys :=
      match item.details.bind RawDetails.required_keys with
      | none => []
      | some l => l }

/-! Helper lemmas shared by the claim theorems. -/

theorem specHasSetKey_eq_code (p : ProviderResponse) :
    specHasSetKey p = providerHasActiveKey p := by
  cases h : p.secret_status <;>
    simp [specHasSetKey, providerHasActiveKey, objectValues, h]

theorem amendedDisplayName_eq_code (p : ProviderResponse) :
    amendedDisplayName p = jsOrStr p.name "Unknown Provider" := by
  cases h : p.name <;> simp [amendedDisplayName, jsOrStr, h]

theorem active_eq_filterMap (settings : List (String × ProviderResponse)) :
    activeProvidersOf settings =
      (settings.map Prod.snd).filterMap fun p =>
        if providerHasActiveKey p then some (jsOrStr p.name "Unknown Provider")
        else none := by
  unfold activeProvidersOf objectValues
  induction settings with
  | nil => rfl
  | cons x rest ih =>
    simp only [List.map_cons, List.filter_cons, List.filterMap_cons]
    cases h : providerHasActiveKey x.2 <;> simp [h, ih]

/-! Claim theorems. -/

/-- C1: `getActiveProviders` never fails outward — whenever the dependency
chain produces an error of any kind (network failure, non-success status,
malformed JSON, or any other raised error), the error is caught and the
empty sequence is returned to the caller; the return type itself excludes
propagation. -/
theorem getActiveProviders_catches_all (env : Env) (e : JsError)
    (h : (getSecretsSettings env).2 = .error e) :
    getActiveProviders env = [] := by
  unfold getActiveProviders
  rw [h]

/-- A concrete environment whose catalog fetch fails at network level. -/
def envNetworkDown : Env :=
  { apiUrl := fun path => "http://localhost:3000" ++ path
    secretKey := "test-secret"
    providersFetch := .error "connection refused"
    secretsFetch := fun _ => .error "unreachable" }

/-- Witness for C1 at a concrete failing environment. -/
theorem getActiveProviders_catches_all_witness :
    (getSecretsSettings envNetworkDown).2 = .error (.transport "connection refused")
      ∧ getActiveProviders envNetworkDown = [] :=
  ⟨rfl, getActiveProviders_catches_all envNetworkDown (.transport "connection refused") rfl⟩

/-- C5: on a non-success HTTP status of the catalog GET, `getProvidersList`
fails with the request error carrying the response's status text, and does
not return a provider list. -/
theorem getProvidersList_non_success (env : Env)
    (response : HttpResponse (List RawProviderEntry))
    (hf : env.providersFetch = .ok response) (hok : response.ok = false) :
    getProvidersList env =
      .error (.requestError ("Failed to fetch providers: " ++ response.statusText)) := by
  unfold getProvidersList
  rw [hf]
  simp [hok]

/-- A concrete environment whose catalog fetch yields an HTTP error status. -/
def envHttp500 : Env :=
  { apiUrl := fun path => "http://localhost:3000" ++ path
    secretKey := "test-secret"
    providersFetch :=
      .ok { ok := false, statusText := "Internal Server Error", json := .error "no body" }
    secretsFetch := fun _ => .error "unreachable" }

/-- Witness for C5 at a concrete 500 response. -/
theorem getProvidersList_non_success_witness :
    envHttp500.providersFetch =
        .ok { ok := false, statusText := "Internal Server Error", json := .error "no body" }
      ∧ getProvidersList envHttp500 =
        .error (.requestError ("Failed to fetch providers: " ++ "Internal Server Error")) :=
  ⟨rfl, getProvidersList_non_success envHttp500
    { ok := false, statusText := "Internal Server Error", json := .error "no body" } rfl rfl⟩

/-- C8: on a successful catalog response, `getProvidersList` returns one
normalized record per raw entry, in the server's order: the i-th output is
the normalization of the i-th input entry. -/
theorem getProvidersList_order (env : Env)
    (response : HttpResponse (List RawProviderEntry))
    (data : List RawProviderEntry)
    (hf : env.providersFetch = .ok response) (hok : response.ok = true)
    (hj : response.json = .ok data) :
    getProvidersList env = .ok (data.map normalizeEntry)
      ∧ (data.map normalizeEntry).length = data.length
      ∧ ∀ i : Nat, (data.map normalizeEntry)[i]? = (data[i]?).map normalizeEntry := by
  refine ⟨?_, List.length_map data normalizeEntry,
    fun i => List.getElem?_map normalizeEntry data i⟩
  unfold getProvidersList
  rw [hf]
  simp [hok, hj]

/-- A raw catalog entry with every detail field present. -/
def rawEntryA : RawProviderEntry :=
  { id := "openai"
    details := some
      { name := some "OpenAI", description := some "GPT models"
        models := some ["gpt-4o"], required_keys := some ["OPENAI_API_KEY"] } }

/-- A raw catalog entry with no details object. -/
def rawEntryB : RawProviderEntry :=
  { id := "cohere", details := none }

/-- A concrete environment whose catalog fetch succeeds with two entries. -/
def envCatalogOk : Env :=
  { apiUrl := fun path => "http://localhost:3000" ++ path
    secretKey := "test-secret"
    providersFetch :=
      .ok { ok := true, statusText := "OK", json := .ok [rawEntryA, rawEntryB] }
    secretsFetch := fun _ => .error "unreachable" }

/-- Witness for C8 at a concrete two-entry response. -/
theorem getProvidersList_order_witness :
    getProvidersList envCatalogOk = .ok [normalizeEntry rawEntryA, normalizeEntry rawEntryB]
      ∧ ([rawEntryA, rawEntryB].map normalizeEntry)[1]? = some (normalizeEntry rawEntryB) :=
  ⟨(getProvidersList_order envCatalogOk
      { ok := true, statusText := "OK", json := .ok [rawEntryA, rawEntryB] }
      [rawEntryA, rawEntryB] rfl rfl rfl).1,
   (getProvidersList_order envCatalogOk
      { ok := true, statusText := "OK", json := .ok [rawEntryA, rawEntryB] }
      [rawEntryA, rawEntryB] rfl rfl rfl).2.2 1⟩

/-- C6: on a non-success HTTP status of the secrets-status POST,
`getSecretsSettings` fails with a request error whose message is exactly
"Failed to fetch secrets"; and any failure of its dependency
`getProvidersList` propagates unchanged, with no partial result (and no
request issued). -/
theorem getSecretsSettings_error_contract :
    (∀ (env : Env) (ps : List Provider)
        (response : HttpResponse (List (String × ProviderResponse))),
      getProvidersList env = .ok ps →
      env.secretsFetch (secretsRequest env (ps.map Provider.id)) = .ok response →
      response.ok = false →
      (getSecretsSettings env).2 = .error (.requestError "Failed to fetch secrets"))
    ∧ (∀ (env : Env) (e : JsError),
      getProvidersList env = .error e →
      getSecretsSettings env = ([], .error e)) := by
  constructor
  · intro env ps response h1 h2 hok
    simp only [getSecretsSettings, h1, h2, hok]
    rfl
  · intro env e h
    simp only [getSecretsSettings, h]

/-- A non-success secrets-status response. -/
def secretsResponse500 : HttpResponse (List (String × ProviderResponse)) :=
  { ok := false, statusText := "Internal Server Error", json := .error "no body" }

/-- A concrete environment where the catalog succeeds and the secrets POST
returns a non-success status. -/
def envSecrets500 : Env :=
  { apiUrl := fun path => "http://localhost:3000" ++ path
    secretKey := "test-secret"
    providersFetch := .ok { ok := true, statusText := "OK", json := .ok [rawEntryA] }
    secretsFetch := fun _ => .ok secretsResponse500 }

/-- Witness for C6: both parts at concrete environments. -/
theorem getSecretsSettings_error_contract_witness :
    (getSecretsSettings envSecrets500).2 = .error (.requestError "Failed to fetch secrets")
      ∧ getSecretsSettings envNetworkDown = ([], .error (.transport "connection refused")) :=
  ⟨getSecretsSettings_error_contract.1 envSecrets500 [normalizeEntry rawEntryA]
      secretsResponse500 rfl rfl rfl,
   getSecretsSettings_error_contract.2 envNetworkDown (.transport "connection refused") rfl⟩

/-- C7: when the dependency succeeds, `getSecretsSettings` issues exactly one
POST, whose body's `providers` field lists every id of every provider
returned by `getProvidersList` (same multiplicity and order), with the
configured secret key forwarded in the X-Secret-Key header, JSON content
type, and the fixed secrets-status path. -/
theorem getSecretsSettings_request_shape (env : Env) (ps : List Provider)
    (h : getProvidersList env = .ok ps) :
    (getSecretsSettings env).1 = [secretsRequest env (ps.map Provider.id)]
      ∧ (secretsRequest env (ps.map Provider.id)).bodyProviders = ps.map Provider.id
      ∧ (secretsRequest env (ps.map Provider.id)).xSecretKey = env.secretKey
      ∧ (secretsRequest env (ps.map Provider.id)).contentType = "application/json"
      ∧ (secretsRequest env (ps.map Provider.id)).url = env.apiUrl "/secrets/providers" := by
  refine ⟨?_, rfl, rfl, rfl, rfl⟩
  simp only [getSecretsSettings, h]
  cases h2 : env.secretsFetch (secretsRequest env (ps.map Provider.id)) with
  | error msg => simp [h2]
  | ok response =>
    cases hok : response.ok with
    | false => simp [hok]
    | true => cases h3 : response.json <;> simp [hok, h3]

/-- Witness for C7 at a concrete successful catalog. -/
theorem getSecretsSettings_request_shape_witness :
    (getSecretsSettings envCatalogOk).1 = [secretsRequest envCatalogOk ["openai", "cohere"]]
      ∧ (secretsRequest envCatalogOk ["openai", "cohere"]).xSecretKey = "test-secret" :=
  ⟨(getSecretsSettings_request_shape envCatalogOk
      [normalizeEntry rawEntryA, normalizeEntry rawEntryB] rfl).1,
   (getSecretsSettings_request_shape envCatalogOk
      [normalizeEntry rawEntryA, normalizeEntry rawEntryB] rfl).2.2.1⟩

/-- The settings mapping refuting C2 read literally: a qualifying provider
whose name field is present but empty contributes "Unknown Provider" to the
code's result, not its name field. -/
def emptyNameSettings : List (String × ProviderResponse) :=
  [("prov", { name := some "", secret_status := some [("KEY", { is_set := true })] })]

/-- Counterexample to C2 as stated: with a present-but-empty name on a
qualifying provider, the code's output differs from the claim's literal
"defaulting only when absent" reading. -/
theorem active_literal_name_cex :
    activeProvidersOf emptyNameSettings = ["Unknown Provider"]
      ∧ specActiveLiteral emptyNameSettings = [""]
      ∧ activeProvidersOf emptyNameSettings ≠ specActiveLiteral emptyNameSettings := by
  decide

/-- C2 (amended): a provider's display name — its name field, defaulting to
"Unknown Provider" when absent or empty — is included if and only if some
secret-status value has `is_set == true`; an entry whose secret_status is
absent entirely is excluded; and on the concrete openai/cohere mapping the
result is exactly ["OpenAI"]. -/
theorem active_iff_some_set (settings : List (String × ProviderResponse))
    (nm : Option String) :
    activeProvidersOf settings = specActiveAmended settings
      ∧ providerHasActiveKey { name := nm, secret_status := none } = false
      ∧ activeProvidersOf
          [("openai",
            { name := some "OpenAI", secret_status := some [("KEY1", { is_set := true })] }),
           ("cohere",
            { name := some "Cohere", secret_status := some [("KEY2", { is_set := false })] })]
        = ["OpenAI"] := by
  refine ⟨?_, rfl, by decide⟩
  rw [active_eq_filterMap]
  unfold specActiveAmended
  congr 1
  funext p
  rw [specHasSetKey_eq_code, amendedDisplayName_eq_code]

/-- The all-fields-present entry refuting C3: an empty name is replaced by
its default rather than preserved. -/
def allPresentEmptyName : RawProviderEntry :=
  { id := "p"
    details := some
      { name := some "", description := some "desc"
        models := some ["m1"], required_keys := some ["K"] } }

/-- Counterexample to C3 as stated: an entry with all detail fields present
is not preserved exactly when its name is the empty string. -/
theorem roundtrip_cex :
    normalizeEntry allPresentEmptyName
        ≠ { id := "p", name := "", description := "desc", models := ["m1"], requiredKeys := ["K"] }
      ∧ (normalizeEntry allPresentEmptyName).name = "Unknown Provider" := by
  decide

/-- C3 (amended): a catalog entry with all detail fields present and the
string fields non-empty maps to a Provider record with every field
preserved exactly, no defaulting applied. -/
theorem roundtrip_truthy (i n d : String) (ms ks : List String)
    (hn : n ≠ "") (hd : d ≠ "") :
    normalizeEntry
        { id := i
          details := some
            { name := some n, description := some d
              models := some ms, required_keys := some ks } }
      = { id := i, name := n, description := d, models := ms, requiredKeys := ks } := by
  simp [normalizeEntry, jsOrStr, hn, hd]

/-- Witness for the amended C3 at a fully populated concrete entry. -/
theorem roundtrip_truthy_witness :
    normalizeEntry
        { id := "openai"
          details := some
            { name := some "OpenAI", description := some "GPT models"
              models := some ["gpt-4o"], required_keys := some ["OPENAI_API_KEY"] } }
      = { id := "openai", name := "OpenAI", description := "GPT models"
          models := ["gpt-4o"], requiredKeys := ["OPENAI_API_KEY"] } :=
  roundtrip_truthy "openai" "OpenAI" "GPT models" ["gpt-4o"] ["OPENAI_API_KEY"]
    (by decide) (by decide)

/-- The partially populated entry refuting C4's "partial presence defaults
only the missing ones": a present-but-empty name is still defaulted. -/
def partialEmptyName : RawProviderEntry :=
  { id := "q"
    details := some
      { name := some "", description := some "has description"
        models := none, required_keys := none } }

/-- Counterexample to C4 as stated: a detail field that is present (the
empty-string name) is nevertheless defaulted. -/
theorem per_field_defaulting_cex :
    (normalizeEntry partialEmptyName).name = "Unknown Provider"
      ∧ (normalizeEntry partialEmptyName).name ≠ ""
      ∧ partialEmptyName.details.bind RawDetails.name = some "" := by
  decide

/-- C4 (amended): every output field is defaulted independently of the
others — the string fields when absent or empty, the sequence fields when
absent — and an entry missing the entire details object yields exactly the
four documented defaults. -/
theorem per_field_defaulting (i : String) (item : RawProviderEntry) :
    normalizeEntry { id := i, details := none }
        = { id := i, name := "Unknown Provider", description := "No description available."
            models := [], requiredKeys := [] }
      ∧ normalizeEntry item = specNormalize item := by
  constructor
  · rfl
  · simp only [normalizeEntry, specNormalize]
    cases hn : item.details.bind RawDetails.name <;>
      cases hd : item.details.bind RawDetails.description <;>
        cases hm : item.details.bind RawDetails.models <;>
          cases hk : item.details.bind RawDetails.required_keys <;>
            simp [jsOrStr]

/-- C9: defaulting triggers on falsiness, not only absence — a
present-but-empty name or description is replaced by its default in
`getProvidersList`, and a qualifying provider with an empty name
contributes "Unknown Provider" to `getActiveProviders`. -/
theorem defaulting_on_falsiness (i k : String) (desc nm : Option String)
    (ms ks : Option (List String))
    (p : ProviderResponse) (rest : List (String × ProviderResponse))
    (hname : p.name = some "") (hq : providerHasActiveKey p = true) :
    (normalizeEntry
        { id := i
          details := some
            { name := some "", description := desc, models := ms, required_keys := ks } }).name
        = "Unknown Provider"
      ∧ (normalizeEntry
          { id := i
            details := some
              { name := nm, description := some "", models := ms, required_keys := ks } }).description
        = "No description available."
      ∧ activeProvidersOf ((k, p) :: rest) = "Unknown Provider" :: activeProvidersOf rest := by
  refine ⟨rfl, rfl, ?_⟩
  simp [activeProvidersOf, objectValues, List.filter_cons, hq, jsOrStr, hname]

/-- Witness for C9 at a concrete qualifying provider with empty name. -/
theorem defaulting_on_falsiness_witness :
    activeProvidersOf
        [("p1", { name := some "", secret_status := some [("K", { is_set := true })] })]
      = "Unknown Provider" :: activeProvidersOf [] :=
  (defaulting_on_falsiness "i" "p1" none none none none
    { name := some "", secret_status := some [("K", { is_set := true })] } [] rfl rfl).2.2

/-- C10: no deduplication — the result of the active-provider pipeline has
exactly one element per qualifying entry (its length is the number of
qualifying entries), and two qualifying providers sharing a display name
yield that name twice. -/
theorem active_no_dedup (settings : List (String × ProviderResponse))
    (k1 k2 : String) (p1 p2 : ProviderResponse) (n : String)
    (h1 : providerHasActiveKey p1 = true) (h2 : providerHasActiveKey p2 = true)
    (e1 : jsOrStr p1.name "Unknown Provider" = n)
    (e2 : jsOrStr p2.name "Unknown Provider" = n) :
    (activeProvidersOf settings).length
        = (settings.map Prod.snd).countP providerHasActiveKey
      ∧ activeProvidersOf [(k1, p1), (k2, p2)] = [n, n] := by
  constructor
  · rw [activeProvidersOf, objectValues, List.length_map, List.countP_eq_length_filter]
  · simp [activeProvidersOf, objectValues, List.filter_cons, h1, h2, e1, e2]

/-- The duplicate-name settings used by the C10 witness. -/
def dupSettings : List (String × ProviderResponse) :=
  [("a", { name := some "X", secret_status := some [("K1", { is_set := true })] }),
   ("b", { name := some "X", secret_status := some [("K2", { is_set := true })] })]

/-- Witness for C10: two qualifying providers named "X" yield ["X", "X"]. -/
theorem active_no_dedup_witness :
    (activeProvidersOf dupSettings).length
        = (dupSettings.map Prod.snd).countP providerHasActiveKey
      ∧ activeProvidersOf dupSettings = ["X", "X"] :=
  active_no_dedup dupSettings "a" "b"
    { name := some "X", secret_status := some [("K1", { is_set := true })] }
    { name := some "X", secret_status := some [("K2", { is_set := true })] }
    "X" rfl rfl rfl rfl

end ApiKeysUtils
